import Mathlib

set_option maxRecDepth 4000

/-!
Verification of the weekly statistics aggregation core of the workout-tracking
service (`src/services/workoutService.ts`).

The loosely-typed JavaScript values that reach the aggregation code are modelled
shallowly:

* a numeric-ish field of a persisted record is a `JsNum`: absent
  (`undefined`/`null`, written `absent`), present but coercing to `NaN`
  (written `junk`), or present and coercing to a finite number `num q`
  (finite doubles are modelled as rationals);
* a persisted `date` field is a `TimestampLike`, mirroring the union accepted
  by `convertToDate`;
* a JavaScript `Date` is its integer millisecond time value, `Option Int`,
  where `none` is an Invalid Date (time value `NaN`).

All functions are translated line by line from the TypeScript source; the
calendar arithmetic of `Date.prototype.getUTCDate`/`setUTCDate` (an external
runtime collaborator) is modelled by the standard civil-from-days /
days-from-civil Gregorian algorithm, with a proved round-trip.
-/

/-- A loosely typed numeric field value as seen by `Number(...)` coercion and
the `??` operator: `absent` is `undefined` (or a missing field), `junk` is a
present value that coerces to `NaN` (for example a non-numeric string), and
`num q` is a value that coerces to the finite number `q`. -/
inductive JsNum where
  | absent : JsNum
  | junk : JsNum
  | num (q : ℚ) : JsNum
deriving DecidableEq

/-- Source `parseNumber`: `Number(value)` followed by the finite-or-zero rule
`Number.isFinite(parsed) ? parsed : 0`. -/
def parseNumber (v : JsNum) : ℚ :=
  match v with
  | .num q => q
  | _ => 0

/-- The JavaScript `a ?? b` operator on field values: `undefined`/`null` fall
through to `b`, anything else (including `NaN`) is kept. -/
def jsOrElse (a b : JsNum) : JsNum :=
  match a with
  | .absent => b
  | _ => a

/-- One persisted set of an exercise (`ExerciseSet` in the source): every
field is loosely typed and optional. -/
structure ExerciseSet where
  weight : JsNum := .absent
  reps : JsNum := .absent
  duration : JsNum := .absent
  time : JsNum := .absent
  distance : JsNum := .absent
deriving DecidableEq

/-- Optional-chaining field access `set?.f` where the set itself may be a
null array entry. -/
def setField (s : Option ExerciseSet) (f : ExerciseSet → JsNum) : JsNum :=
  match s with
  | some x => f x
  | none => .absent

/-- The four canonical menu types (`MenuType` in the source). -/
inductive MenuType where
  | weight | bodyweight | time | distance
deriving DecidableEq

/-- Membership in `MENU_TYPE_VALUES`: maps the persisted `menuType` string to
the canonical type when it is one of the four values. -/
def menuTypeOfString (s : String) : Option MenuType :=
  if s = "weight" then some .weight
  else if s = "bodyweight" then some .bodyweight
  else if s = "time" then some .time
  else if s = "distance" then some .distance
  else none

/-- One persisted exercise of a workout document
(`Partial WorkoutExercise` with loose `sets`/`menuName`/`name`/`menuType`):
every field may be absent; `sets` is `none` when absent or not an array. -/
structure ExerciseRec where
  name : Option String := none
  menuName : Option String := none
  menuType : Option String := none
  type : Option String := none
  sets : Option (List (Option ExerciseSet)) := none

/-- The declared-type test of `resolveMenuType`:
`exercise?.menuType && MENU_TYPE_VALUES.includes(exercise.menuType)`. -/
def declaredMenuType (e : ExerciseRec) : Option MenuType :=
  match e.menuType with
  | some s => menuTypeOfString s
  | none => none

/-- Source `resolveMenuType`, translated clause by clause. -/
def resolveMenuType (e : ExerciseRec) : MenuType :=
  match declaredMenuType e with
  | some t => t
  | none =>
    let sets := e.sets.getD []
    if sets.any fun s => decide (0 < parseNumber (setField s ExerciseSet.distance)) then
      .distance
    else if e.type = some "time" then
      .time
    else if (sets.any fun s => decide (0 < parseNumber (setField s ExerciseSet.weight)) &&
        decide (0 < parseNumber (setField s ExerciseSet.reps))) || e.type = some "weight" then
      .weight
    else if sets.any fun s =>
        decide (0 < parseNumber (jsOrElse (setField s ExerciseSet.duration) (setField s ExerciseSet.time))) then
      .time
    else if sets.any fun s => decide (0 < parseNumber (setField s ExerciseSet.reps)) then
      .bodyweight
    else
      .bodyweight

/-- The body of the `reduce` inside `computeVolumeForExercise`: one step of
the per-set volume accumulation for a resolved type. -/
def setVolumeStep (type : MenuType) (total : ℚ) (s : Option ExerciseSet) : ℚ :=
  match s with
  | none => total
  | some set =>
    match type with
    | .weight =>
      let weight := parseNumber set.weight
      let reps := parseNumber set.reps
      if weight ≤ 0 ∨ reps ≤ 0 then total else total + weight * reps
    | .bodyweight =>
      let reps := parseNumber set.reps
      if reps ≤ 0 then total else total + reps
    | .time =>
      let seconds := parseNumber (jsOrElse set.time set.duration)
      if seconds ≤ 0 then total else total + seconds
    | .distance =>
      let distance := parseNumber set.distance
      if distance ≤ 0 then total else total + distance

/-- Source `computeVolumeForExercise`: resolve the type, then fold the sets
with initial total `0`. -/
def computeVolumeForExercise (e : ExerciseRec) : MenuType × ℚ :=
  let type := resolveMenuType e
  let sets := e.sets.getD []
  (type, sets.foldl (setVolumeStep type) 0)

/-- JavaScript `String.prototype.includes`: substring containment. -/
def jsIncludes (s pat : String) : Bool :=
  (List.range (s.data.length + 1)).any fun i => pat.data.isPrefixOf (s.data.drop i)

/-- The warmup keyword searched for in menu names. -/
def warmupKeyword : String := "ウォームアップ"

/-- The cooldown keyword searched for in menu names. -/
def cooldownKeyword : String := "クールダウン"


/- year-of-era start day -/
def ysFn (y : Nat) : Nat := 365 * y + y / 4 - y / 100

/- leap-day-corrected day count used to select the year of era -/
def gFn (doe : Nat) : Nat := doe - doe / 1460 + doe / 36524 - doe / 146096

theorem gFn_mono_step (doe : Nat) : gFn doe ≤ gFn (doe + 1) := by
  unfold gFn
  omega

/- exclusive end of year-of-era y; the last year of an era ends at 146097 -/
def yeEnd (y : Nat) : Nat := if y + 1 = 400 then 146097 else ysFn (y + 1)

def yearCheck (y : Nat) : Bool :=
  decide (ysFn y < yeEnd y) && decide (yeEnd y ≤ ysFn y + 366) &&
    decide (365 * y ≤ gFn (ysFn y)) && decide (gFn (yeEnd y - 1) < 365 * (y + 1))

def monthCheck (doy : Nat) : Bool :=
  let mp := (5 * doy + 2) / 153
  decide ((153 * mp + 2) / 5 ≤ doy) && decide (mp < 12)

def allBelow (f : Nat → Bool) : Nat → Bool
  | 0 => true
  | n + 1 => f n && allBelow f n

theorem allBelow_sound (f : Nat → Bool) :
    ∀ n, allBelow f n = true → ∀ m, m < n → f m = true := by
  intro n
  induction n with
  | zero => intro _ m hm; omega
  | succ k ih =>
    intro h m hm
    have h' : f k = true ∧ allBelow f k = true := by
      simpa [allBelow, Bool.and_eq_true] using h
    rcases Nat.lt_succ_iff_lt_or_eq.mp hm with h1 | h2
    · exact ih h'.2 m h1
    · subst h2; exact h'.1

theorem yearCheck_all : allBelow yearCheck 400 = true := by decide

theorem monthCheck_all : allBelow monthCheck 366 = true := by decide

theorem gFn_mono : Monotone gFn := monotone_nat_of_le_succ gFn_mono_step

theorem yearCheck_facts (y : Nat) (h : y < 400) :
    ysFn y < yeEnd y ∧ yeEnd y ≤ ysFn y + 366 ∧
      365 * y ≤ gFn (ysFn y) ∧ gFn (yeEnd y - 1) < 365 * (y + 1) := by
  have := allBelow_sound yearCheck 400 yearCheck_all y h
  simpa [yearCheck, Bool.and_eq_true, decide_eq_true_eq, and_assoc] using this

theorem monthCheck_facts (doy : Nat) (h : doy ≤ 365) :
    (153 * ((5 * doy + 2) / 153) + 2) / 5 ≤ doy ∧ (5 * doy + 2) / 153 < 12 := by
  have := allBelow_sound monthCheck 366 monthCheck_all doy (by omega)
  simpa [monthCheck, Bool.and_eq_true, decide_eq_true_eq] using this

theorem ys_bracket : ∀ doe : Nat, doe < 146097 → ∃ y, y < 400 ∧ ysFn y ≤ doe ∧ doe < yeEnd y := by
  intro doe
  induction doe with
  | zero =>
    intro _
    refine ⟨0, by omega, by simp [ysFn], ?_⟩
    have := (yearCheck_facts 0 (by omega)).1
    simpa [ysFn] using this
  | succ d ih =>
    intro hlt
    obtain ⟨y, hy, h1, h2⟩ := ih (by omega)
    by_cases hcase : d + 1 < yeEnd y
    · exact ⟨y, hy, by omega, hcase⟩
    · have heq : d + 1 = yeEnd y := by omega
      have hy400 : y + 1 < 400 := by
        by_contra hge
        have h400 : y + 1 = 400 := by omega
        have : yeEnd y = 146097 := by simp [yeEnd, h400]
        omega
      have hne : ¬ (y + 1 = 400) := by omega
      have hstart : ysFn (y + 1) = yeEnd y := by simp [yeEnd, hne]
      refine ⟨y + 1, hy400, by omega, ?_⟩
      have := (yearCheck_facts (y + 1) hy400).1
      omega

theorem yoe_facts (doe : Nat) (h : doe < 146097) :
    gFn doe / 365 < 400 ∧ ysFn (gFn doe / 365) ≤ doe ∧ doe - ysFn (gFn doe / 365) ≤ 365 := by
  obtain ⟨y, hy, h1, h2⟩ := ys_bracket doe h
  obtain ⟨c1, c2, c3, c4⟩ := yearCheck_facts y hy
  have hg1 : 365 * y ≤ gFn doe := le_trans c3 (gFn_mono h1)
  have hg2 : gFn doe < 365 * (y + 1) := by
    have := gFn_mono (show doe ≤ yeEnd y - 1 by omega)
    omega
  have hdiv : gFn doe / 365 = y := by omega
  rw [hdiv]
  omega

/- components of the Gregorian conversion (Hinnant-style civil calendar algorithm) -/
def eraOfZ (z : Int) : Int := (z + 719468) / 146097

def doeOfZ (z : Int) : Nat := (z + 719468 - eraOfZ z * 146097).toNat

def yoeOfDoe (doe : Nat) : Nat := gFn doe / 365

def doyOfDoe (doe : Nat) : Nat := doe - ysFn (yoeOfDoe doe)

def mpOfDoy (doy : Nat) : Nat := (5 * doy + 2) / 153

def msOfMp (mp : Nat) : Nat := (153 * mp + 2) / 5

def mOfMp (mp : Nat) : Nat := if mp < 10 then mp + 3 else mp - 9

/- Gregorian calendar: epoch day number -> (year, month, day-of-month) -/
def civilFromDays (z : Int) : Int × Nat × Nat :=
  let doe := doeOfZ z
  let yoe := yoeOfDoe doe
  let doy := doyOfDoe doe
  let mp := mpOfDoy doy
  let d := doy - msOfMp mp + 1
  let m := mOfMp mp
  let y : Int := (yoe : Int) + eraOfZ z * 400
  (if m ≤ 2 then y + 1 else y, m, d)

/- Gregorian calendar: (year, month, day-of-month) -> epoch day number -/
def daysFromCivil (y : Int) (m d : Nat) : Int :=
  let y' : Int := if m ≤ 2 then y - 1 else y
  let era : Int := y' / 400
  let yoe : Nat := (y' - era * 400).toNat
  let mp : Nat := if 2 < m then m - 3 else m + 9
  let doy : Nat := (153 * mp + 2) / 5 + d - 1
  let doe : Nat := ysFn yoe + doy
  era * 146097 + (doe : Int) - 719468

theorem comp_facts (doe : Nat) (h : doe < 146097) :
    yoeOfDoe doe < 400 ∧ ysFn (yoeOfDoe doe) ≤ doe ∧ doyOfDoe doe ≤ 365 ∧
      msOfMp (mpOfDoy (doyOfDoe doe)) ≤ doyOfDoe doe ∧ mpOfDoy (doyOfDoe doe) < 12 := by
  obtain ⟨h1, h2, h3⟩ := yoe_facts doe h
  have h4 := monthCheck_facts (doe - ysFn (gFn doe / 365)) h3
  exact ⟨h1, h2, by unfold doyOfDoe yoeOfDoe; omega,
    by unfold msOfMp mpOfDoy doyOfDoe yoeOfDoe; omega,
    by unfold mpOfDoy doyOfDoe yoeOfDoe; omega⟩

theorem roundtrip_doe (era : Int) (doe : Nat) (h97 : doe < 146097) :
    daysFromCivil
      (if mOfMp (mpOfDoy (doyOfDoe doe)) ≤ 2 then (yoeOfDoe doe : Int) + era * 400 + 1
        else (yoeOfDoe doe : Int) + era * 400)
      (mOfMp (mpOfDoy (doyOfDoe doe)))
      (doyOfDoe doe - msOfMp (mpOfDoy (doyOfDoe doe)) + 1)
      = era * 146097 + doe - 719468 := by
  have hdoyEq : doyOfDoe doe = doe - ysFn (yoeOfDoe doe) := rfl
  obtain ⟨hy400, hys, hdoy365, hms, hmp12⟩ := comp_facts doe h97
  set yoe := yoeOfDoe doe with hyoeS
  set doy := doyOfDoe doe with hdoyS
  set mp := mpOfDoy doy with hmpS
  set ms := msOfMp mp with hmsS
  set m := mOfMp mp with hmS
  have hmsEq : ms = (153 * mp + 2) / 5 := rfl
  have hmEq : m = if mp < 10 then mp + 3 else mp - 9 := rfl
  simp only [daysFromCivil]
  rw [hmEq]
  by_cases hmpc : mp < 10
  · rw [if_pos hmpc]
    rw [if_neg (by omega : ¬ (mp + 3 ≤ 2)), if_neg (by omega : ¬ (mp + 3 ≤ 2)),
      if_pos (by omega : 2 < mp + 3)]
    have h3 : mp + 3 - 3 = mp := by omega
    rw [h3]
    have heraEq : ((yoe : Int) + era * 400) / 400 = era := by omega
    rw [heraEq]
    have hyoeEq : ((yoe : Int) + era * 400 - era * 400).toNat = yoe := by omega
    rw [hyoeEq]
    omega
  · rw [if_neg hmpc]
    rw [if_pos (by omega : mp - 9 ≤ 2), if_pos (by omega : mp - 9 ≤ 2),
      if_neg (by omega : ¬ (2 < mp - 9))]
    have h9 : mp - 9 + 9 = mp := by omega
    rw [h9]
    have hy1 : (yoe : Int) + era * 400 + 1 - 1 = (yoe : Int) + era * 400 := by ring
    rw [hy1]
    have heraEq : ((yoe : Int) + era * 400) / 400 = era := by omega
    rw [heraEq]
    have hyoeEq : ((yoe : Int) + era * 400 - era * 400).toNat = yoe := by omega
    rw [hyoeEq]
    omega

theorem daysFromCivil_civilFromDays (z : Int) :
    daysFromCivil (civilFromDays z).1 (civilFromDays z).2.1 (civilFromDays z).2.2 = z := by
  have h97 : doeOfZ z < 146097 := by unfold doeOfZ eraOfZ; omega
  have hmain := roundtrip_doe (eraOfZ z) (doeOfZ z) h97
  have hc1 : (civilFromDays z).1 =
      (if mOfMp (mpOfDoy (doyOfDoe (doeOfZ z))) ≤ 2 then (yoeOfDoe (doeOfZ z) : Int) + eraOfZ z * 400 + 1
        else (yoeOfDoe (doeOfZ z) : Int) + eraOfZ z * 400) := rfl
  have hc2 : (civilFromDays z).2.1 = mOfMp (mpOfDoy (doyOfDoe (doeOfZ z))) := rfl
  have hc3 : (civilFromDays z).2.2 =
      doyOfDoe (doeOfZ z) - msOfMp (mpOfDoy (doyOfDoe (doeOfZ z))) + 1 := rfl
  rw [hc1, hc2, hc3, hmain]
  unfold doeOfZ eraOfZ
  omega

theorem civilFromDays_day_pos (z : Int) : 1 ≤ (civilFromDays z).2.2 := by
  have hc3 : (civilFromDays z).2.2 =
      doyOfDoe (doeOfZ z) - msOfMp (mpOfDoy (doyOfDoe (doeOfZ z))) + 1 := rfl
  omega

def msPerDay : Int := 86400000

/- JS Day(t): the UTC day number containing instant t (floor division) -/
def jsDay (t : Int) : Int := t / msPerDay

/- JS TimeWithinDay(t): milliseconds since UTC midnight, in [0, msPerDay) -/
def timeWithinDay (t : Int) : Int := t % msPerDay

/- JS WeekDay(t) = Date.prototype.getUTCDay: 0 = Sunday, ..., 6 = Saturday -/
def jsWeekDay (t : Int) : Int := (jsDay t + 4) % 7

/- Date.prototype.getUTCDate: the day of month, 1-31 -/
def jsGetUTCDate (t : Int) : Nat := (civilFromDays (jsDay t)).2.2

/- Date.prototype.setUTCDate(n): move to day n of the current UTC month
   (out-of-range n normalizes into adjacent months), keeping the time of day -/
def jsSetUTCDate (t n : Int) : Int :=
  msPerDay * (daysFromCivil (civilFromDays (jsDay t)).1 (civilFromDays (jsDay t)).2.1 1 + (n - 1)) +
    timeWithinDay t

/- Date.prototype.setUTCHours(0,0,0,0): truncate to UTC midnight -/
def jsSetUTCHoursZero (t : Int) : Int := msPerDay * jsDay t

theorem daysFromCivil_linear (y : Int) (m d : Nat) (hd : 1 ≤ d) :
    daysFromCivil y m d = daysFromCivil y m 1 + (d : Int) - 1 := by
  simp only [daysFromCivil]
  by_cases hm : m ≤ 2
  · rw [if_pos hm]
    omega
  · rw [if_neg hm]
    omega

theorem jsSetUTCDate_eq (t n : Int) :
    jsSetUTCDate t n = msPerDay * (jsDay t + n - jsGetUTCDate t) + timeWithinDay t := by
  unfold jsSetUTCDate jsGetUTCDate
  have h1 := daysFromCivil_civilFromDays (jsDay t)
  have h2 := civilFromDays_day_pos (jsDay t)
  have h3 := daysFromCivil_linear (civilFromDays (jsDay t)).1 (civilFromDays (jsDay t)).2.1
    (civilFromDays (jsDay t)).2.2 h2
  rw [h1] at h3
  unfold msPerDay
  omega

def getStartOfWeekJST (t : Int) : Int :=
  let day := jsWeekDay t
  let diff : Int := (jsGetUTCDate t : Int) - day + (if day = 0 then -6 else 1)
  jsSetUTCHoursZero (jsSetUTCDate t diff)

theorem getStartOfWeekJST_eq (t : Int) :
    getStartOfWeekJST t =
      msPerDay * (jsDay t - jsWeekDay t + (if jsWeekDay t = 0 then -6 else 1)) := by
  unfold getStartOfWeekJST jsSetUTCHoursZero
  simp only
  rw [jsSetUTCDate_eq]
  by_cases h0 : jsWeekDay t = 0
  · rw [if_pos h0]
    simp only [jsWeekDay, jsDay, timeWithinDay, msPerDay] at h0 ⊢
    omega
  · rw [if_neg h0]
    simp only [jsWeekDay, jsDay, timeWithinDay, msPerDay] at h0 ⊢
    omega

theorem getStartOfWeekJST_idem (t : Int) :
    getStartOfWeekJST (getStartOfWeekJST t) = getStartOfWeekJST t := by
  rw [getStartOfWeekJST_eq t]
  set D := jsDay t - jsWeekDay t + (if jsWeekDay t = 0 then -6 else 1) with hD
  have hDday : jsDay (msPerDay * D) = D := by
    unfold jsDay msPerDay
    omega
  have hwd : jsWeekDay (msPerDay * D) = 1 := by
    unfold jsWeekDay
    rw [hDday]
    unfold jsWeekDay at hD
    by_cases h0 : (jsDay t + 4) % 7 = 0
    · rw [if_pos h0] at hD
      omega
    · rw [if_neg h0] at hD
      omega
  rw [getStartOfWeekJST_eq (msPerDay * D)]
  rw [hwd, hDday]
  norm_num

/-- A loosely typed JavaScript number (the `date` field may hold any number,
including non-finite ones). -/
inductive JsNumber where
  | nan | posInf | negInf
  | num (q : ℚ)
deriving DecidableEq

/-- The largest magnitude of a valid JavaScript Date time value
(`8.64e15` milliseconds, per the ECMAScript `TimeClip` operation). -/
def jsDateClip : ℚ := 8640000000000000

/-- Truncation toward zero (`ToIntegerOrInfinity` on a finite number). -/
def ratTrunc (q : ℚ) : Int := if q < 0 then ⌈q⌉ else ⌊q⌋

/-- Constructing a Date from a finite millisecond value: `TimeClip` yields an
Invalid Date (`none`) beyond the representable range, otherwise the value is
truncated to an integer count of milliseconds. -/
def jsDateFromNum (q : ℚ) : Option Int :=
  if |q| ≤ jsDateClip then some (ratTrunc q) else none

/-- The union of shapes accepted by the source `convertToDate`
(`FirestoreTimestampLike`): a store-native timestamp object exposing `toDate()`
(carrying the instant it converts to), a plain object whose `seconds` key is
present (with loose `seconds`/`nanoseconds` values), a string (carrying its
`Date.parse` result, `none` when parsing fails), a number, or anything else
(`null`, `undefined`, a plain `Date`, objects without `toDate`/`seconds`). -/
inductive TimestampLike where
  | tsObject (ms : Int)
  | secondsObj (seconds nanoseconds : JsNum)
  | str (parsed : Option Int)
  | numLit (v : JsNumber)
  | other
deriving DecidableEq

/-- Source `convertToDate`, translated case by case. `now` is the instant
`new Date()` would observe at the call. The `secondsObj` case mirrors
`new Date(t.seconds * 1000 + (t.nanoseconds || 0) / 1000000)`, which is
returned without a validity check; arithmetic on a `seconds` value that
coerces to `NaN` produces an Invalid Date. The string and number cases check
`isNaN(date.getTime())` and fall through to the `new Date()` fallback. -/
def convertToDate (ts : TimestampLike) (now : Int) : Option Int :=
  match ts with
  | .tsObject ms => some ms
  | .secondsObj sec nanos =>
    match sec with
    | .num q =>
      let n : ℚ := match nanos with | .num r => r | _ => 0
      jsDateFromNum (q * 1000 + n / 1000000)
    | _ => none
  | .str parsed =>
    match parsed with
    | some ms => some ms
    | none => some now
  | .numLit v =>
    match v with
    | .num q =>
      match jsDateFromNum (if q < 10000000000 then q * 1000 else q) with
      | some ms => some ms
      | none => some now
    | _ => some now
  | .other => some now

/-- The filter `workoutDate >= windowStart && workoutDate < windowEndExclusive`;
comparisons against an Invalid Date (`NaN` time value) are false. -/
def dateInWindow (d : Option Int) (s e : Int) : Bool :=
  match d with
  | some t => decide (s ≤ t) && decide (t < e)
  | none => false

/-- JavaScript `Math.round`: half-up rounding (toward positive infinity). -/
def jsRound (q : ℚ) : Int := ⌊q + 1 / 2⌋

/-- Per-type weekly volume accumulator (`WeeklyVolumeByType`,
`createInitialVolumeByType`). -/
structure VolByType where
  weight : ℚ
  bodyweight : ℚ
  time : ℚ
  distance : ℚ
deriving DecidableEq

/-- The initial all-zero volume record. -/
def zeroVol : VolByType := ⟨0, 0, 0, 0⟩

/-- Source `volumeByType[type] += volume`. -/
def addTyped (v : VolByType) (t : MenuType) (q : ℚ) : VolByType :=
  match t with
  | .weight => { v with weight := v.weight + q }
  | .bodyweight => { v with bodyweight := v.bodyweight + q }
  | .time => { v with time := v.time + q }
  | .distance => { v with distance := v.distance + q }

/-- Componentwise sum of two per-type volume records. -/
def addVol (a b : VolByType) : VolByType :=
  ⟨a.weight + b.weight, a.bodyweight + b.bodyweight, a.time + b.time, a.distance + b.distance⟩

/-- One persisted workout document as read by the weekly statistics queries
(`WorkoutDoc` in the source): all fields loose and optional. -/
structure WorkoutDoc where
  date : TimestampLike := .other
  exercises : Option (List ExerciseRec) := none
  totalVolume : Option ℚ := none
  warmupDuration : JsNum := .absent
  cooldownDuration : JsNum := .absent

/-- Source `exercise.menuName ?? exercise.name ?? ''` (on the string fields). -/
def menuNameOf (ex : ExerciseRec) : String :=
  match ex.menuName with
  | some s => s
  | none =>
    match ex.name with
    | some s => s
    | none => ""

/-- The seconds sum of the menu-based warmup/cooldown aggregation:
`exercise.sets.reduce((sec, set) => ...)` adding `Number(set?.time ?? set?.duration)`
when finite and positive, with `0` when `sets` is absent or not an array. -/
def posDurationSecondsSum (sets : Option (List (Option ExerciseSet))) : ℚ :=
  match sets with
  | some l =>
    l.foldl (fun sec s =>
      let v := parseNumber (jsOrElse (setField s ExerciseSet.time) (setField s ExerciseSet.duration))
      if 0 < v then sec + v else sec) 0
  | none => 0

/-- The running state of one weekly statistics pass: the mutable accumulators
of `getThisWeeksStats` / `getLastWeeksStats`. The day set holds the UTC day
number of the workout instant, which is in bijection with the
`toISOString().split('T')[0]` keys used by the source. -/
@[ext]
structure AggState where
  count : Nat
  totalVolume : ℚ
  volumeByType : VolByType
  warmupTotal : Int
  cooldownTotal : Int
  warmupTotalSeconds : ℚ
  cooldownTotalSeconds : ℚ
  daySet : Finset Int
  exerciseSet : Finset String

/-- The zero-initialized accumulators. -/
def initState : AggState := ⟨0, 0, zeroVol, 0, 0, 0, 0, ∅, ∅⟩

/-- Field-based warmup accumulation:
`if (typeof data.warmupDuration === 'number' && data.warmupDuration > 0)`
then add `Math.round(x / 60)` minutes and `x` seconds. -/
def addFieldWarmup (st : AggState) (v : JsNum) : AggState :=
  match v with
  | .num q =>
    if 0 < q then
      { st with warmupTotal := st.warmupTotal + jsRound (q / 60),
                warmupTotalSeconds := st.warmupTotalSeconds + q }
    else st
  | _ => st

/-- Field-based cooldown accumulation, symmetric to `addFieldWarmup`. -/
def addFieldCooldown (st : AggState) (v : JsNum) : AggState :=
  match v with
  | .num q =>
    if 0 < q then
      { st with cooldownTotal := st.cooldownTotal + jsRound (q / 60),
                cooldownTotalSeconds := st.cooldownTotalSeconds + q }
    else st
  | _ => st

/-- Menu-based warmup accumulation after the exercise loop:
`if (warmupSecondsFromMenus > 0)` then add rounded minutes and exact seconds. -/
def addMenuWarmup (st : AggState) (wSec : ℚ) : AggState :=
  if 0 < wSec then
    { st with warmupTotal := st.warmupTotal + jsRound (wSec / 60),
              warmupTotalSeconds := st.warmupTotalSeconds + wSec }
  else st

/-- Menu-based cooldown accumulation, symmetric to `addMenuWarmup`. -/
def addMenuCooldown (st : AggState) (cSec : ℚ) : AggState :=
  if 0 < cSec then
    { st with cooldownTotal := st.cooldownTotal + jsRound (cSec / 60),
              cooldownTotalSeconds := st.cooldownTotalSeconds + cSec }
  else st

/-- The exercise-name bookkeeping of the `forEach` body:
`if (exercise && typeof exercise.name === 'string' && exercise.name.trim().length > 0)`
then `exerciseSet.add(exercise.name.trim())`. -/
def nameStep (st : AggState) (ex : ExerciseRec) : AggState :=
  match ex.name with
  | some nm =>
    if 0 < nm.trim.length then { st with exerciseSet := insert nm.trim st.exerciseSet } else st
  | none => st

/-- The per-type volume bookkeeping of the `forEach` body:
`const (type, volume) = computeVolumeForExercise(exercise); if (volume > 0) volumeByType[type] += volume`. -/
def volStep (st : AggState) (ex : ExerciseRec) : AggState :=
  if 0 < (computeVolumeForExercise ex).2 then
    { st with volumeByType :=
        addTyped st.volumeByType (computeVolumeForExercise ex).1 (computeVolumeForExercise ex).2 }
  else st

/-- The menu-name based warmup/cooldown seconds accumulation of the `forEach`
body (the pair is `warmupSecondsFromMenus, cooldownSecondsFromMenus`):
guarded by a non-empty menu name, a time menu
(`exercise.menuType === 'time' || resolveMenuType(exercise) === 'time'`), and a
positive seconds sum; the warmup and cooldown keyword tests are independent. -/
def menuSecondsStep (wc : ℚ × ℚ) (ex : ExerciseRec) : ℚ × ℚ :=
  if 0 < (menuNameOf ex).length ∧ (ex.menuType = some "time" ∨ resolveMenuType ex = MenuType.time) then
    if 0 < posDurationSecondsSum ex.sets then
      ((if jsIncludes (menuNameOf ex) warmupKeyword then wc.1 + posDurationSecondsSum ex.sets else wc.1),
        (if jsIncludes (menuNameOf ex) cooldownKeyword then wc.2 + posDurationSecondsSum ex.sets else wc.2))
    else wc
  else wc

/-- The body of `data.exercises.forEach(exercise => ...)`: updates the
exercise-name set and per-type volume, and accumulates the per-workout
`warmupSecondsFromMenus` / `cooldownSecondsFromMenus`. -/
def exerciseStep (acc : AggState × ℚ × ℚ) (ex : ExerciseRec) : AggState × ℚ × ℚ :=
  (volStep (nameStep acc.1 ex) ex, menuSecondsStep acc.2 ex)

/-- Processing of one in-window workout document dated at instant `t`:
count, raw total volume, field-based warmup/cooldown, day set, and the
exercise loop followed by the menu-based warmup/cooldown flush. -/
def processInWindow (st : AggState) (w : WorkoutDoc) (t : Int) : AggState :=
  let st1 := { st with count := st.count + 1, totalVolume := st.totalVolume + w.totalVolume.getD 0 }
  let st2 := addFieldWarmup st1 w.warmupDuration
  let st3 := addFieldCooldown st2 w.cooldownDuration
  let st4 := { st3 with daySet := insert (jsDay t) st3.daySet }
  match w.exercises with
  | none => st4
  | some exs =>
    let r := exs.foldl exerciseStep (st4, 0, 0)
    addMenuCooldown (addMenuWarmup r.1 r.2.1) r.2.2

/-- Processing of one fetched document: normalize the date, test the half-open
window, and accumulate when inside. -/
def processDoc (now s e : Int) (st : AggState) (w : WorkoutDoc) : AggState :=
  match convertToDate w.date now with
  | none => st
  | some t => if s ≤ t ∧ t < e then processInWindow st w t else st

/-- The weekly aggregation pass over all fetched documents for the half-open
window `[s, e)`; `now` is the instant observed by date-normalization
fallbacks. -/
def aggregate (now s e : Int) (docs : List WorkoutDoc) : AggState :=
  docs.foldl (processDoc now s e) initState

/-- Source `getThisWeeksStats` window plumbing: `endOfWeek` is a copy of
`startOfWeek` moved 7 days later via `setUTCDate(getUTCDate() + 7)`. -/
def getThisWeeksStatsModel (now : Int) (docs : List WorkoutDoc) : AggState :=
  let startOfWeek := getStartOfWeekJST now
  let endOfWeek := jsSetUTCDate startOfWeek ((jsGetUTCDate startOfWeek : Int) + 7)
  aggregate now startOfWeek endOfWeek docs

/-- Source `getLastWeeksStats` window plumbing: the previous Monday boundary
to this week's Monday boundary (exclusive). -/
def getLastWeeksStatsModel (now : Int) (docs : List WorkoutDoc) : AggState :=
  let thisWeekStart := getStartOfWeekJST now
  let lastWeekStart := jsSetUTCDate thisWeekStart ((jsGetUTCDate thisWeekStart : Int) - 7)
  aggregate now lastWeekStart thisWeekStart docs

/-- Specification-level per-set volume contribution: the amount a single set
adds to the fold of `computeVolumeForExercise` for a given resolved type. -/
def setContribution (type : MenuType) (s : Option ExerciseSet) : ℚ :=
  match s with
  | none => 0
  | some set =>
    match type with
    | .weight =>
      if parseNumber set.weight ≤ 0 ∨ parseNumber set.reps ≤ 0 then 0
      else parseNumber set.weight * parseNumber set.reps
    | .bodyweight =>
      if parseNumber set.reps ≤ 0 then 0 else parseNumber set.reps
    | .time =>
      if parseNumber (jsOrElse set.time set.duration) ≤ 0 then 0
      else parseNumber (jsOrElse set.time set.duration)
    | .distance =>
      if parseNumber set.distance ≤ 0 then 0 else parseNumber set.distance

/-- Specification-level positive-seconds value of one set, as summed by the
menu-based warmup/cooldown aggregation. -/
def posDurationOfSet (s : Option ExerciseSet) : ℚ :=
  if 0 < parseNumber (jsOrElse (setField s ExerciseSet.time) (setField s ExerciseSet.duration)) then
    parseNumber (jsOrElse (setField s ExerciseSet.time) (setField s ExerciseSet.duration))
  else 0

theorem foldl_eq_add_sum {α : Type} (f : α → ℚ) (step : ℚ → α → ℚ)
    (hstep : ∀ a x, step a x = a + f x) :
    ∀ (l : List α) (a : ℚ), l.foldl step a = a + (l.map f).sum := by
  intro l
  induction l with
  | nil => intro a; simp
  | cons x xs ih => intro a; simp [List.foldl_cons, hstep, ih, add_assoc]

theorem setVolumeStep_add (type : MenuType) (a : ℚ) (s : Option ExerciseSet) :
    setVolumeStep type a s = a + setContribution type s := by
  cases s with
  | none => simp [setVolumeStep, setContribution]
  | some set =>
    cases type <;> simp only [setVolumeStep, setContribution] <;> split_ifs <;> ring

theorem computeVolume_eq_sum (e : ExerciseRec) :
    computeVolumeForExercise e =
      (resolveMenuType e,
        ((e.sets.getD []).map (setContribution (resolveMenuType e))).sum) := by
  show (resolveMenuType e, (e.sets.getD []).foldl (setVolumeStep (resolveMenuType e)) 0) = _
  rw [foldl_eq_add_sum (setContribution (resolveMenuType e)) _ (setVolumeStep_add (resolveMenuType e))]
  rw [zero_add]

theorem setContribution_nonneg (type : MenuType) (s : Option ExerciseSet) :
    0 ≤ setContribution type s := by
  cases s with
  | none => simp [setContribution]
  | some set =>
    cases type <;> simp only [setContribution] <;> split_ifs with h <;>
      first
        | rfl
        | linarith
        | (push_neg at h; exact le_of_lt (mul_pos h.1 h.2))

theorem computeVolume_nonneg (e : ExerciseRec) : 0 ≤ (computeVolumeForExercise e).2 := by
  rw [computeVolume_eq_sum]
  exact List.sum_nonneg (by
    intro x hx
    obtain ⟨s, _, rfl⟩ := List.mem_map.mp hx
    exact setContribution_nonneg _ s)

theorem posDurationSecondsSum_eq_sum (sets : Option (List (Option ExerciseSet))) :
    posDurationSecondsSum sets = ((sets.getD []).map posDurationOfSet).sum := by
  cases sets with
  | none => simp [posDurationSecondsSum]
  | some l =>
    show l.foldl _ 0 = _
    rw [foldl_eq_add_sum posDurationOfSet _ (by
      intro a s
      simp only [posDurationOfSet]
      split_ifs <;> ring)]
    simp

theorem posDurationOfSet_nonneg (s : Option ExerciseSet) : 0 ≤ posDurationOfSet s := by
  simp only [posDurationOfSet]
  split_ifs with h
  · linarith
  · rfl

theorem posDurationSecondsSum_nonneg (sets : Option (List (Option ExerciseSet))) :
    0 ≤ posDurationSecondsSum sets := by
  rw [posDurationSecondsSum_eq_sum]
  exact List.sum_nonneg (by
    intro x hx
    obtain ⟨s, _, rfl⟩ := List.mem_map.mp hx
    exact posDurationOfSet_nonneg s)

/-- Specification-level trimmed-name contribution of one exercise to the
unique-exercise set. -/
def trimmedNameSet (ex : ExerciseRec) : Finset String :=
  match ex.name with
  | some nm => if 0 < nm.trim.length then {nm.trim} else ∅
  | none => ∅

/-- Specification-level per-type volume contribution of one exercise. -/
def exVolContribution (ex : ExerciseRec) : VolByType :=
  if 0 < (computeVolumeForExercise ex).2 then
    addTyped zeroVol (computeVolumeForExercise ex).1 (computeVolumeForExercise ex).2
  else zeroVol

/-- Specification-level warmup seconds of one exercise: its positive set
seconds when its resolved type is `time` and its (menu) name contains the
warmup keyword, `0` otherwise. -/
def exWarmupMenuSeconds (ex : ExerciseRec) : ℚ :=
  if resolveMenuType ex = MenuType.time ∧ jsIncludes (menuNameOf ex) warmupKeyword = true then
    posDurationSecondsSum ex.sets
  else 0

/-- Specification-level cooldown seconds of one exercise, symmetric to
`exWarmupMenuSeconds`. -/
def exCooldownMenuSeconds (ex : ExerciseRec) : ℚ :=
  if resolveMenuType ex = MenuType.time ∧ jsIncludes (menuNameOf ex) cooldownKeyword = true then
    posDurationSecondsSum ex.sets
  else 0

theorem addVol_zeroVol (v : VolByType) : addVol v zeroVol = v := by
  cases v
  simp [addVol, zeroVol]

theorem zeroVol_addVol (v : VolByType) : addVol zeroVol v = v := by
  cases v
  simp [addVol, zeroVol]

theorem addVol_assoc (a b c : VolByType) : addVol (addVol a b) c = addVol a (addVol b c) := by
  cases a; cases b; cases c
  simp only [addVol]
  norm_num [add_assoc]

theorem addTyped_eq_addVol (v : VolByType) (t : MenuType) (q : ℚ) :
    addTyped v t q = addVol v (addTyped zeroVol t q) := by
  cases v
  cases t <;> simp [addTyped, addVol, zeroVol]

theorem resolveMenuType_of_menuType_time (ex : ExerciseRec) (h : ex.menuType = some "time") :
    resolveMenuType ex = MenuType.time := by
  unfold resolveMenuType declaredMenuType
  rw [h]
  rfl

theorem nameStep_spec (st : AggState) (ex : ExerciseRec) :
    nameStep st ex = { st with exerciseSet := st.exerciseSet ∪ trimmedNameSet ex } := by
  cases hx : ex.name with
  | none => simp [nameStep, trimmedNameSet, hx]
  | some nm =>
    simp only [nameStep, trimmedNameSet, hx]
    split_ifs with h
    · rw [Finset.union_comm]
      rfl
    · simp

theorem volStep_spec (st : AggState) (ex : ExerciseRec) :
    volStep st ex = { st with volumeByType := addVol st.volumeByType (exVolContribution ex) } := by
  unfold volStep exVolContribution
  split_ifs with h
  · rw [addTyped_eq_addVol]
  · simp [addVol_zeroVol]

theorem string_length_zero {s : String} (h : s.length = 0) : s = "" := by
  cases s with
  | mk data =>
    cases data with
    | nil => rfl
    | cons c cs => simp [String.length] at h

theorem jsIncludes_empty_warmup : jsIncludes "" warmupKeyword = false := by decide

theorem jsIncludes_empty_cooldown : jsIncludes "" cooldownKeyword = false := by decide

theorem menuSecondsStep_spec (wc : ℚ × ℚ) (ex : ExerciseRec) :
    menuSecondsStep wc ex = (wc.1 + exWarmupMenuSeconds ex, wc.2 + exCooldownMenuSeconds ex) := by
  unfold menuSecondsStep exWarmupMenuSeconds exCooldownMenuSeconds
  by_cases hg : 0 < (menuNameOf ex).length ∧
      (ex.menuType = some "time" ∨ resolveMenuType ex = MenuType.time)
  · rw [if_pos hg]
    have hres : resolveMenuType ex = MenuType.time := by
      rcases hg.2 with h | h
      · exact resolveMenuType_of_menuType_time ex h
      · exact h
    by_cases hs : 0 < posDurationSecondsSum ex.sets
    · rw [if_pos hs]
      by_cases hw : jsIncludes (menuNameOf ex) warmupKeyword <;>
        by_cases hc : jsIncludes (menuNameOf ex) cooldownKeyword <;>
        simp [hw, hc, hres]
    · rw [if_neg hs]
      have h0 : posDurationSecondsSum ex.sets = 0 :=
        le_antisymm (not_lt.mp hs) (posDurationSecondsSum_nonneg ex.sets)
      simp [h0]
  · rw [if_neg hg]
    push_neg at hg
    by_cases hlen : 0 < (menuNameOf ex).length
    · have hnt := hg hlen
      push_neg at hnt
      simp [hnt.2]
    · have hempty : menuNameOf ex = "" := string_length_zero (by omega)
      rw [hempty]
      simp [jsIncludes_empty_warmup, jsIncludes_empty_cooldown]

theorem exerciseStep_spec (st : AggState) (wq cq : ℚ) (ex : ExerciseRec) :
    exerciseStep (st, wq, cq) ex =
      ({ st with exerciseSet := st.exerciseSet ∪ trimmedNameSet ex,
                 volumeByType := addVol st.volumeByType (exVolContribution ex) },
        wq + exWarmupMenuSeconds ex, cq + exCooldownMenuSeconds ex) := by
  unfold exerciseStep
  rw [nameStep_spec, volStep_spec, menuSecondsStep_spec]

/-- Specification-level trimmed-name set of a list of exercises. -/
def exNamesOf (exs : List ExerciseRec) : Finset String :=
  exs.foldr (fun ex acc => trimmedNameSet ex ∪ acc) ∅

/-- Specification-level per-type volume sum of a list of exercises. -/
def exVolOf (exs : List ExerciseRec) : VolByType :=
  exs.foldr (fun ex acc => addVol (exVolContribution ex) acc) zeroVol

theorem exerciseFold_spec (exs : List ExerciseRec) :
    ∀ (st : AggState) (wq cq : ℚ),
      exs.foldl exerciseStep (st, wq, cq) =
        ({ st with exerciseSet := st.exerciseSet ∪ exNamesOf exs,
                   volumeByType := addVol st.volumeByType (exVolOf exs) },
          wq + (exs.map exWarmupMenuSeconds).sum,
          cq + (exs.map exCooldownMenuSeconds).sum) := by
  induction exs with
  | nil =>
    intro st wq cq
    simp [exNamesOf, exVolOf, addVol_zeroVol]
  | cons x xs ih =>
    intro st wq cq
    rw [List.foldl_cons, exerciseStep_spec, ih]
    simp [exNamesOf, exVolOf, Finset.union_assoc, addVol_assoc, add_assoc]

/-- Seconds contributed by the explicit warmup field: the field value when it
is a positive number, `0` otherwise. -/
def fieldSeconds (v : JsNum) : ℚ :=
  match v with
  | .num q => if 0 < q then q else 0
  | _ => 0

/-- Minutes contributed by one explicit duration field: `Math.round(q / 60)`
when the field is a positive number, `0` otherwise. -/
def fieldMinutes (v : JsNum) : Int :=
  match v with
  | .num q => if 0 < q then jsRound (q / 60) else 0
  | _ => 0

/-- Specification-level explicit warmup seconds of one workout. -/
def workoutExplicitWarmup (w : WorkoutDoc) : ℚ := fieldSeconds w.warmupDuration

/-- Specification-level explicit cooldown seconds of one workout. -/
def workoutExplicitCooldown (w : WorkoutDoc) : ℚ := fieldSeconds w.cooldownDuration

/-- Specification-level menu-derived warmup seconds of one workout: the sum
over its exercises of `exWarmupMenuSeconds`. -/
def workoutMenuWarmupSeconds (w : WorkoutDoc) : ℚ :=
  match w.exercises with
  | some exs => (exs.map exWarmupMenuSeconds).sum
  | none => 0

/-- Specification-level menu-derived cooldown seconds of one workout. -/
def workoutMenuCooldownSeconds (w : WorkoutDoc) : ℚ :=
  match w.exercises with
  | some exs => (exs.map exCooldownMenuSeconds).sum
  | none => 0

/-- Specification-level warmup seconds of one workout: explicit field plus
menu-derived seconds, additively. -/
def workoutWarmupSeconds (w : WorkoutDoc) : ℚ :=
  workoutExplicitWarmup w + workoutMenuWarmupSeconds w

/-- Specification-level cooldown seconds of one workout. -/
def workoutCooldownSeconds (w : WorkoutDoc) : ℚ :=
  workoutExplicitCooldown w + workoutMenuCooldownSeconds w

/-- Specification-level warmup minutes of one workout: the two sources are
rounded separately (per workout), then summed. -/
def workoutWarmupMinutes (w : WorkoutDoc) : Int :=
  fieldMinutes w.warmupDuration +
    (if 0 < workoutMenuWarmupSeconds w then jsRound (workoutMenuWarmupSeconds w / 60) else 0)

/-- Specification-level cooldown minutes of one workout. -/
def workoutCooldownMinutes (w : WorkoutDoc) : Int :=
  fieldMinutes w.cooldownDuration +
    (if 0 < workoutMenuCooldownSeconds w then jsRound (workoutMenuCooldownSeconds w / 60) else 0)

/-- Specification-level unique-exercise names of one workout. -/
def workoutNames (w : WorkoutDoc) : Finset String :=
  match w.exercises with
  | some exs => exNamesOf exs
  | none => ∅

/-- Specification-level per-type volume of one workout. -/
def workoutVol (w : WorkoutDoc) : VolByType :=
  match w.exercises with
  | some exs => exVolOf exs
  | none => zeroVol

theorem addFieldWarmup_spec (st : AggState) (v : JsNum) :
    addFieldWarmup st v =
      { st with warmupTotal := st.warmupTotal + fieldMinutes v,
                warmupTotalSeconds := st.warmupTotalSeconds + fieldSeconds v } := by
  cases v <;> simp [addFieldWarmup, fieldMinutes, fieldSeconds] <;> split_ifs <;> simp

theorem addFieldCooldown_spec (st : AggState) (v : JsNum) :
    addFieldCooldown st v =
      { st with cooldownTotal := st.cooldownTotal + fieldMinutes v,
                cooldownTotalSeconds := st.cooldownTotalSeconds + fieldSeconds v } := by
  cases v <;> simp [addFieldCooldown, fieldMinutes, fieldSeconds] <;> split_ifs <;> simp

theorem addMenuWarmup_spec (st : AggState) (wSec : ℚ) (h : 0 ≤ wSec) :
    addMenuWarmup st wSec =
      { st with warmupTotal := st.warmupTotal + (if 0 < wSec then jsRound (wSec / 60) else 0),
                warmupTotalSeconds := st.warmupTotalSeconds + wSec } := by
  unfold addMenuWarmup
  split_ifs with hpos
  · rfl
  · have h0 : wSec = 0 := le_antisymm (not_lt.mp hpos) h
    simp [h0]

theorem addMenuCooldown_spec (st : AggState) (cSec : ℚ) (h : 0 ≤ cSec) :
    addMenuCooldown st cSec =
      { st with cooldownTotal := st.cooldownTotal + (if 0 < cSec then jsRound (cSec / 60) else 0),
                cooldownTotalSeconds := st.cooldownTotalSeconds + cSec } := by
  unfold addMenuCooldown
  split_ifs with hpos
  · rfl
  · have h0 : cSec = 0 := le_antisymm (not_lt.mp hpos) h
    simp [h0]

theorem menuWarmupSum_nonneg (exs : List ExerciseRec) :
    0 ≤ (exs.map exWarmupMenuSeconds).sum := by
  apply List.sum_nonneg
  intro x hx
  obtain ⟨ex, _, rfl⟩ := List.mem_map.mp hx
  unfold exWarmupMenuSeconds
  split_ifs
  · exact posDurationSecondsSum_nonneg ex.sets
  · rfl

theorem menuCooldownSum_nonneg (exs : List ExerciseRec) :
    0 ≤ (exs.map exCooldownMenuSeconds).sum := by
  apply List.sum_nonneg
  intro x hx
  obtain ⟨ex, _, rfl⟩ := List.mem_map.mp hx
  unfold exCooldownMenuSeconds
  split_ifs
  · exact posDurationSecondsSum_nonneg ex.sets
  · rfl

theorem processInWindow_spec (st : AggState) (w : WorkoutDoc) (t : Int) :
    processInWindow st w t =
      { count := st.count + 1,
        totalVolume := st.totalVolume + w.totalVolume.getD 0,
        volumeByType := addVol st.volumeByType (workoutVol w),
        warmupTotal := st.warmupTotal + workoutWarmupMinutes w,
        cooldownTotal := st.cooldownTotal + workoutCooldownMinutes w,
        warmupTotalSeconds := st.warmupTotalSeconds + workoutWarmupSeconds w,
        cooldownTotalSeconds := st.cooldownTotalSeconds + workoutCooldownSeconds w,
        daySet := insert (jsDay t) st.daySet,
        exerciseSet := st.exerciseSet ∪ workoutNames w } := by
  cases hx : w.exercises with
  | none =>
    apply AggState.ext <;>
      simp [processInWindow, hx, addFieldWarmup_spec, addFieldCooldown_spec,
        workoutVol, workoutNames, workoutWarmupMinutes, workoutCooldownMinutes,
        workoutWarmupSeconds, workoutCooldownSeconds, workoutMenuWarmupSeconds,
        workoutMenuCooldownSeconds, workoutExplicitWarmup, workoutExplicitCooldown,
        addVol_zeroVol]
  | some exs =>
    apply AggState.ext <;>
      simp [-Prod.mk_zero_zero, processInWindow, hx, addFieldWarmup_spec, addFieldCooldown_spec,
        exerciseFold_spec,
        addMenuWarmup_spec _ _ (menuWarmupSum_nonneg exs),
        addMenuCooldown_spec _ _ (menuCooldownSum_nonneg exs),
        workoutVol, workoutNames, workoutWarmupMinutes, workoutCooldownMinutes,
        workoutWarmupSeconds, workoutCooldownSeconds, workoutMenuWarmupSeconds,
        workoutMenuCooldownSeconds, workoutExplicitWarmup, workoutExplicitCooldown,
        add_assoc]

theorem aggregate_singleton (now s e : Int) (w : WorkoutDoc) :
    aggregate now s e [w] = processDoc now s e initState w := rfl

theorem processDoc_inWindow (now s e : Int) (st : AggState) (w : WorkoutDoc) (t : Int)
    (hd : convertToDate w.date now = some t) (h1 : s ≤ t) (h2 : t < e) :
    processDoc now s e st w = processInWindow st w t := by
  simp [processDoc, hd, h1, h2]

theorem processDoc_notInWindow (now s e : Int) (st : AggState) (w : WorkoutDoc) (t : Int)
    (hd : convertToDate w.date now = some t) (h : ¬(s ≤ t ∧ t < e)) :
    processDoc now s e st w = st := by
  simp only [processDoc, hd]
  rw [if_neg h]

theorem processDoc_invalidDate (now s e : Int) (st : AggState) (w : WorkoutDoc)
    (hd : convertToDate w.date now = none) :
    processDoc now s e st w = st := by
  simp [processDoc, hd]

/-- Pointwise combination of two aggregation states: numeric fields add, the
day and exercise sets union. -/
def addState (a b : AggState) : AggState :=
  ⟨a.count + b.count, a.totalVolume + b.totalVolume, addVol a.volumeByType b.volumeByType,
    a.warmupTotal + b.warmupTotal, a.cooldownTotal + b.cooldownTotal,
    a.warmupTotalSeconds + b.warmupTotalSeconds, a.cooldownTotalSeconds + b.cooldownTotalSeconds,
    a.daySet ∪ b.daySet, a.exerciseSet ∪ b.exerciseSet⟩

/-- The aggregation contribution of a single document, computed from the
zero-initialized state: a pure function of the document, `now`, and the
window alone. -/
def docContribution (now s e : Int) (w : WorkoutDoc) : AggState :=
  processDoc now s e initState w

theorem union_singleton_eq_insert {α : Type} [DecidableEq α] (a : α) (s : Finset α) :
    s ∪ {a} = insert a s := by
  rw [Finset.insert_eq, Finset.union_comm]

theorem addState_initState (a : AggState) : addState a initState = a := by
  cases a
  simp [addState, initState, addVol_zeroVol]

theorem processDoc_addState (now s e : Int) (st : AggState) (w : WorkoutDoc) :
    processDoc now s e st w = addState st (docContribution now s e w) := by
  unfold docContribution
  cases hd : convertToDate w.date now with
  | none =>
    rw [processDoc_invalidDate now s e st w hd, processDoc_invalidDate now s e initState w hd,
      addState_initState]
  | some t =>
    by_cases hw : s ≤ t ∧ t < e
    · rw [processDoc_inWindow now s e st w t hd hw.1 hw.2,
        processDoc_inWindow now s e initState w t hd hw.1 hw.2,
        processInWindow_spec, processInWindow_spec]
      apply AggState.ext <;>
        simp [addState, initState, zeroVol_addVol, union_singleton_eq_insert]
    · rw [processDoc_notInWindow now s e st w t hd hw,
        processDoc_notInWindow now s e initState w t hd hw, addState_initState]

theorem aggregate_decomposition (now s e : Int) (docs : List WorkoutDoc) :
    aggregate now s e docs = (docs.map (docContribution now s e)).foldl addState initState := by
  have key : ∀ (st : AggState),
      docs.foldl (processDoc now s e) st = (docs.map (docContribution now s e)).foldl addState st := by
    induction docs with
    | nil => intro st; simp
    | cons x xs ih =>
      intro st
      rw [List.map_cons, List.foldl_cons, List.foldl_cons, processDoc_addState]
      exact ih _
  exact key initState

/-- The resolver priority order as worded by the specification: declared
canonical type first, then positive distance, legacy `time` tag, positive
weight-and-reps or legacy `weight` tag, positive duration/time (aliased),
positive reps, and finally the `bodyweight` default. -/
def resolveMenuTypeSpec (ex : ExerciseRec) : MenuType :=
  let sets := ex.sets.getD []
  match ex.menuType.bind menuTypeOfString with
  | some t => t
  | none =>
    if ∃ s ∈ sets, 0 < parseNumber (setField s ExerciseSet.distance) then .distance
    else if ex.type = some "time" then .time
    else if (∃ s ∈ sets, 0 < parseNumber (setField s ExerciseSet.weight) ∧
        0 < parseNumber (setField s ExerciseSet.reps)) ∨ ex.type = some "weight" then .weight
    else if ∃ s ∈ sets,
        0 < parseNumber (jsOrElse (setField s ExerciseSet.duration) (setField s ExerciseSet.time)) then .time
    else if ∃ s ∈ sets, 0 < parseNumber (setField s ExerciseSet.reps) then .bodyweight
    else .bodyweight

theorem declaredMenuType_eq_bind (ex : ExerciseRec) :
    declaredMenuType ex = ex.menuType.bind menuTypeOfString := by
  cases hx : ex.menuType <;> simp [declaredMenuType, hx]

theorem resolveMenuType_eq_spec (ex : ExerciseRec) :
    resolveMenuType ex = resolveMenuTypeSpec ex := by
  unfold resolveMenuType resolveMenuTypeSpec
  rw [declaredMenuType_eq_bind]
  cases hdm : ex.menuType.bind menuTypeOfString with
  | some t => rfl
  | none =>
    simp only [List.any_eq_true, decide_eq_true_eq, Bool.and_eq_true, Bool.or_eq_true]

/-- The aggregation result over a single in-window workout document, with
every output field given by its per-workout specification function. -/
theorem aggregate_one (now s e : Int) (w : WorkoutDoc) (t : Int)
    (hd : convertToDate w.date now = some t) (h1 : s ≤ t) (h2 : t < e) :
    aggregate now s e [w] =
      ⟨1, w.totalVolume.getD 0, workoutVol w, workoutWarmupMinutes w, workoutCooldownMinutes w,
        workoutWarmupSeconds w, workoutCooldownSeconds w, {jsDay t}, workoutNames w⟩ := by
  rw [aggregate_singleton, processDoc_inWindow now s e initState w t hd h1 h2,
    processInWindow_spec]
  apply AggState.ext <;> simp [initState, zeroVol_addVol]

/-- C1: for every exercise record the type resolver is a deterministic
function of the exercise alone and follows the exact priority order of the
specification (declared canonical type; positive distance; legacy `time` tag;
positive weight-and-reps or legacy `weight` tag; positive duration/time;
positive reps; `bodyweight` default); in particular an exercise with declared
type `weight` and a set with distance 5 resolves to `weight`. -/
theorem C1_resolver_priority_order :
    (∀ ex : ExerciseRec, resolveMenuType ex = resolveMenuTypeSpec ex) ∧
      resolveMenuType { menuType := some "weight", sets := some [some { distance := JsNum.num 5 }] } =
        MenuType.weight :=
  ⟨resolveMenuType_eq_spec, by decide⟩

theorem setContribution_weight_rule (set : ExerciseSet) :
    setContribution MenuType.weight (some set) =
      if 0 < parseNumber set.weight ∧ 0 < parseNumber set.reps then
        parseNumber set.weight * parseNumber set.reps
      else 0 := by
  simp only [setContribution]
  split_ifs with h1 h2
  · exfalso
    rcases h1 with h | h
    · linarith [h2.1]
    · linarith [h2.2]
  · rfl
  · rfl
  · exfalso
    push_neg at h1
    rcases not_and_or.mp (by assumption) with h | h
    · exact h (by linarith [h1.1])
    · exact h (by linarith [h1.2])

/-- C2: for every resolved type and sequence of sets the computed volume is
non-negative and equals the sum of independent per-set contributions; a
missing or non-finite field parses to 0; for the weight type a set
contributes `weight * reps` exactly when both are strictly positive after
finite-or-zero coercion, and 0 otherwise — in particular weight 10 with
reps 0 contributes 0, and weight 10 with reps 5 contributes 50. -/
theorem C2_volume_nonneg_weight_rule :
    (∀ ex : ExerciseRec, 0 ≤ (computeVolumeForExercise ex).2) ∧
    (∀ ex : ExerciseRec, (computeVolumeForExercise ex).2 =
        ((ex.sets.getD []).map (setContribution (resolveMenuType ex))).sum) ∧
    (∀ (type : MenuType) (s : Option ExerciseSet), 0 ≤ setContribution type s) ∧
    (∀ set : ExerciseSet, setContribution MenuType.weight (some set) =
        if 0 < parseNumber set.weight ∧ 0 < parseNumber set.reps then
          parseNumber set.weight * parseNumber set.reps
        else 0) ∧
    parseNumber JsNum.absent = 0 ∧ parseNumber JsNum.junk = 0 ∧
    setContribution MenuType.weight (some { weight := JsNum.num 10, reps := JsNum.num 0 }) = 0 ∧
    setContribution MenuType.weight (some { weight := JsNum.num 10, reps := JsNum.num 5 }) = 50 :=
  ⟨computeVolume_nonneg,
    fun ex => by rw [computeVolume_eq_sum],
    setContribution_nonneg,
    setContribution_weight_rule,
    rfl, rfl,
    by norm_num [setContribution, parseNumber],
    by norm_num [setContribution, parseNumber]⟩

/-- C5: for every half-open window with `windowStart < windowEndExclusive`, a
record whose normalized date equals the window start exactly is included in
the aggregation (the comparison is `>=`), and a record whose normalized date
equals the exclusive window end exactly is excluded (the comparison is `<`). -/
theorem C5_window_half_open (now s e : Int) (h : s < e) :
    dateInWindow (some s) s e = true ∧ dateInWindow (some e) s e = false ∧
    (aggregate now s e [{ date := TimestampLike.tsObject s }]).count = 1 ∧
    (aggregate now s e [{ date := TimestampLike.tsObject e }]).count = 0 := by
  refine ⟨by simp [dateInWindow, h], by simp [dateInWindow], ?_, ?_⟩
  · rw [aggregate_one now s e { date := TimestampLike.tsObject s } s rfl (le_refl s) h]
  · rw [aggregate_singleton,
      processDoc_notInWindow now s e initState { date := TimestampLike.tsObject e } e rfl (by simp)]
    rfl

/-- C5 witness at a concrete one-week window. -/
theorem C5_window_half_open_witness :
    dateInWindow (some 0) 0 604800000 = true ∧ dateInWindow (some 604800000) 0 604800000 = false ∧
    (aggregate 0 0 604800000 [{ date := TimestampLike.tsObject 0 }]).count = 1 ∧
    (aggregate 0 0 604800000 [{ date := TimestampLike.tsObject 604800000 }]).count = 0 :=
  C5_window_half_open 0 0 604800000 (by norm_num)

/-- C6: the week-boundary calculation is idempotent: for every instant,
applying `getStartOfWeekJST` (which computes the Monday boundary via the
weekday index with Sunday 0 and the adjustment
`day_of_month - weekday + (weekday == 0 ? -6 : 1)`, zeroing the time fields)
twice gives the same result as applying it once. -/
theorem C6_week_start_idempotent (t : Int) :
    getStartOfWeekJST (getStartOfWeekJST t) = getStartOfWeekJST t :=
  getStartOfWeekJST_idem t

/-- C9: the weekly aggregation is deterministic and pure: two runs on the
same input list and the same `now` give identical results, and the result
decomposes into per-record contributions (each a pure function of the record,
`now`, and the window) combined by a pointwise state sum — there is no
dependence on external mutable state and no cross-record interference. -/
theorem C9_deterministic_pure :
    (∀ (now : Int) (docs : List WorkoutDoc),
        getThisWeeksStatsModel now docs = getThisWeeksStatsModel now docs) ∧
    (∀ (now : Int) (docs : List WorkoutDoc),
        getLastWeeksStatsModel now docs = getLastWeeksStatsModel now docs) ∧
    (∀ (now s e : Int) (docs : List WorkoutDoc),
        aggregate now s e docs = (docs.map (docContribution now s e)).foldl addState initState) ∧
    (∀ (now s e : Int) (st : AggState) (w : WorkoutDoc),
        processDoc now s e st w = addState st (docContribution now s e w)) :=
  ⟨fun _ _ => rfl, fun _ _ => rfl, aggregate_decomposition, processDoc_addState⟩

/-- The C3 example workout: explicit 120-second warmup field plus one
time-type exercise named with the warmup keyword holding one 60-second set. -/
def c3Workout : WorkoutDoc :=
  { date := TimestampLike.tsObject 0,
    warmupDuration := JsNum.num 120,
    exercises := some [{ name := some "ウォームアップ", sets := some [some { duration := JsNum.num 60 }] }] }

/-- C3: for every in-window workout the warmup (and symmetrically cooldown)
seconds total is the sum of the explicit per-workout duration field (when
positive) plus the summed positive set durations of every exercise whose
resolved type is `time` and whose name contains the warmup (resp. cooldown)
keyword — the two sources are additive; in particular an explicit field of
120 plus one matching 60-second exercise yields 180 seconds. -/
theorem C3_warmup_two_sources_additive :
    (∀ (now s e : Int) (w : WorkoutDoc) (t : Int),
        convertToDate w.date now = some t → s ≤ t → t < e →
          (aggregate now s e [w]).warmupTotalSeconds =
              workoutExplicitWarmup w + workoutMenuWarmupSeconds w ∧
            (aggregate now s e [w]).cooldownTotalSeconds =
              workoutExplicitCooldown w + workoutMenuCooldownSeconds w) ∧
      (aggregate 0 0 1 [c3Workout]).warmupTotalSeconds = 180 := by
  constructor
  · intro now s e w t hd h1 h2
    rw [aggregate_one now s e w t hd h1 h2]
    exact ⟨rfl, rfl⟩
  · rw [aggregate_one 0 0 1 c3Workout 0 rfl (le_refl 0) (by norm_num)]
    show workoutWarmupSeconds c3Workout = 180
    have hres : resolveMenuType
        { name := some "ウォームアップ", sets := some [some { duration := JsNum.num 60 }] } =
        MenuType.time := by decide
    have hinc : jsIncludes
        (menuNameOf { name := some "ウォームアップ", sets := some [some { duration := JsNum.num 60 }] })
        warmupKeyword = true := by decide
    norm_num [workoutWarmupSeconds, workoutExplicitWarmup, workoutMenuWarmupSeconds, c3Workout,
      fieldSeconds, exWarmupMenuSeconds, hres, hinc, posDurationSecondsSum, parseNumber,
      jsOrElse, setField]

/-- C3 witness: the general additivity statement applied to the concrete
example workout in the window from 0 to 1. -/
theorem C3_warmup_witness :
    (aggregate 0 0 1 [c3Workout]).warmupTotalSeconds =
        workoutExplicitWarmup c3Workout + workoutMenuWarmupSeconds c3Workout ∧
      (aggregate 0 0 1 [c3Workout]).cooldownTotalSeconds =
        workoutExplicitCooldown c3Workout + workoutMenuCooldownSeconds c3Workout :=
  C3_warmup_two_sources_additive.1 0 0 1 c3Workout 0 rfl (le_refl 0) (by norm_num)

/-- The C4 counterexample workout: a 30-second explicit warmup field plus one
matching 30-second warmup menu exercise. -/
def c4Workout : WorkoutDoc :=
  { date := TimestampLike.tsObject 0,
    warmupDuration := JsNum.num 30,
    exercises := some [{ name := some "ウォームアップ", sets := some [some { duration := JsNum.num 30 }] }] }

/-- C4 counterexample: the minutes-denominated warmup output is not
`round(warmupTotalSeconds / 60)`: the code rounds each workout's explicit
field and menu sum separately and adds the rounded values, so a 30-second
field plus a 30-second menu exercise gives warmupTotal 2 while the exact
seconds total is 60 and `round(60 / 60) = 1`. -/
theorem C4_minutes_counterexample :
    (aggregate 0 0 1 [c4Workout]).warmupTotal = 2 ∧
    (aggregate 0 0 1 [c4Workout]).warmupTotalSeconds = 60 ∧
    jsRound ((aggregate 0 0 1 [c4Workout]).warmupTotalSeconds / 60) = 1 ∧
    (aggregate 0 0 1 [c4Workout]).warmupTotal ≠
      jsRound ((aggregate 0 0 1 [c4Workout]).warmupTotalSeconds / 60) := by
  rw [aggregate_one 0 0 1 c4Workout 0 rfl (le_refl 0) (by norm_num)]
  have hres : resolveMenuType
      { name := some "ウォームアップ", sets := some [some { duration := JsNum.num 30 }] } =
      MenuType.time := by decide
  have hinc : jsIncludes
      (menuNameOf { name := some "ウォームアップ", sets := some [some { duration := JsNum.num 30 }] })
      warmupKeyword = true := by decide
  have hmenu : workoutMenuWarmupSeconds c4Workout = 30 := by
    norm_num [workoutMenuWarmupSeconds, c4Workout, exWarmupMenuSeconds, hres, hinc,
      posDurationSecondsSum, parseNumber, jsOrElse, setField]
  have hmin : workoutWarmupMinutes c4Workout = 2 := by
    unfold workoutWarmupMinutes
    rw [hmenu]
    norm_num [fieldMinutes, c4Workout, jsRound]
  have hsec : workoutWarmupSeconds c4Workout = 60 := by
    unfold workoutWarmupSeconds
    rw [hmenu]
    norm_num [workoutExplicitWarmup, c4Workout, fieldSeconds]
  refine ⟨hmin, hsec, ?_, ?_⟩
  · rw [hsec]
    norm_num [jsRound]
  · rw [hsec, hmin]
    norm_num [jsRound]

/-- C4 amended: the seconds-denominated outputs are exact sums of all
contributions, while the minutes-denominated outputs are the sums over
workouts of `round(fieldSeconds / 60)` plus `round(menuSeconds / 60)`, each
source rounded separately per workout (not `round(totalSeconds / 60)`). -/
theorem C4_minutes_amended (now s e : Int) (w : WorkoutDoc) (t : Int)
    (hd : convertToDate w.date now = some t) (h1 : s ≤ t) (h2 : t < e) :
    (aggregate now s e [w]).warmupTotal = workoutWarmupMinutes w ∧
    (aggregate now s e [w]).cooldownTotal = workoutCooldownMinutes w ∧
    (aggregate now s e [w]).warmupTotalSeconds =
        workoutExplicitWarmup w + workoutMenuWarmupSeconds w ∧
    (aggregate now s e [w]).cooldownTotalSeconds =
        workoutExplicitCooldown w + workoutMenuCooldownSeconds w := by
  rw [aggregate_one now s e w t hd h1 h2]
  exact ⟨rfl, rfl, rfl, rfl⟩

/-- C4 witness: the amended statement applied to the counterexample workout. -/
theorem C4_minutes_amended_witness :
    (aggregate 0 0 1 [c4Workout]).warmupTotal = workoutWarmupMinutes c4Workout ∧
    (aggregate 0 0 1 [c4Workout]).cooldownTotal = workoutCooldownMinutes c4Workout ∧
    (aggregate 0 0 1 [c4Workout]).warmupTotalSeconds =
        workoutExplicitWarmup c4Workout + workoutMenuWarmupSeconds c4Workout ∧
    (aggregate 0 0 1 [c4Workout]).cooldownTotalSeconds =
        workoutExplicitCooldown c4Workout + workoutMenuCooldownSeconds c4Workout :=
  C4_minutes_amended 0 0 1 c4Workout 0 rfl (le_refl 0) (by norm_num)

/-- C7 counterexample: the number −20,000,000,000 has magnitude above
10,000,000,000, so the claim predicts epoch-millisecond treatment
(date −20,000,000,000), but the code's signed comparison
`timestamp < 10000000000` is true for every negative number and multiplies by
1000, yielding −20,000,000,000,000. -/
theorem C7_magnitude_counterexample :
    convertToDate (TimestampLike.numLit (JsNumber.num (-20000000000))) 0 =
        some (-20000000000000) ∧
      convertToDate (TimestampLike.numLit (JsNumber.num (-20000000000))) 0 ≠
        some (-20000000000) := by
  have h : convertToDate (TimestampLike.numLit (JsNumber.num (-20000000000))) 0 =
      match jsDateFromNum
          (if (-20000000000 : ℚ) < 10000000000 then -20000000000 * 1000 else -20000000000) with
      | some ms => some ms
      | none => some (0 : Int) := rfl
  have hceil : ⌈(-20000000000000 : ℚ)⌉ = (-20000000000000 : ℤ) := by
    rw [show (-20000000000000 : ℚ) = ((-20000000000000 : ℤ) : ℚ) by norm_num]
    exact Int.ceil_intCast _
  have hval : jsDateFromNum
      (if (-20000000000 : ℚ) < 10000000000 then -20000000000 * 1000 else -20000000000) =
      some (-20000000000000) := by
    norm_num [jsDateFromNum, jsDateClip, ratTrunc, hceil]
  rw [h, hval]
  norm_num

/-- C7 amended: the numeric timestamp normalizer multiplies by 1000 exactly
when the signed value is below 10,000,000,000 (so every negative number is
treated as epoch-seconds regardless of magnitude), treats larger values as
epoch-milliseconds, and degrades to `now` when the resulting date is
invalid. -/
theorem C7_signed_threshold_amended :
    (∀ (q : ℚ) (now : Int),
        convertToDate (TimestampLike.numLit (JsNumber.num q)) now =
          some ((jsDateFromNum (if q < 10000000000 then q * 1000 else q)).getD now)) ∧
    (∀ (q : ℚ) (now : Int), q < 0 → |q * 1000| ≤ jsDateClip →
        convertToDate (TimestampLike.numLit (JsNumber.num q)) now = some (ratTrunc (q * 1000))) := by
  constructor
  · intro q now
    show (match jsDateFromNum (if q < 10000000000 then q * 1000 else q) with
          | some ms => some ms
          | none => some now) = _
    cases jsDateFromNum (if q < 10000000000 then q * 1000 else q) <;> rfl
  · intro q now hneg hclip
    have hq : q < 10000000000 := lt_trans hneg (by norm_num)
    show (match jsDateFromNum (if q < 10000000000 then q * 1000 else q) with
          | some ms => some ms
          | none => some now) = _
    rw [if_pos hq]
    unfold jsDateFromNum
    rw [if_pos hclip]

/-- C7 witness: the amended negative-number clause applied at −20,000,000,000. -/
theorem C7_signed_threshold_witness :
    convertToDate (TimestampLike.numLit (JsNumber.num (-20000000000))) 0 =
      some (ratTrunc ((-20000000000 : ℚ) * 1000)) :=
  C7_signed_threshold_amended.2 (-20000000000) 0 (by norm_num) (by norm_num [jsDateClip])

/-- C8 counterexample: a malformed plain seconds object (a `seconds` value
coercing to `NaN`) is returned as an Invalid Date by `convertToDate` — not a
valid instant and in particular not the current instant. -/
theorem C8_invalid_date_counterexample :
    (convertToDate (TimestampLike.secondsObj JsNum.junk JsNum.absent) 0).isSome = false ∧
      convertToDate (TimestampLike.secondsObj JsNum.junk JsNum.absent) 0 ≠ some 0 := by
  have h0 : convertToDate (TimestampLike.secondsObj JsNum.junk JsNum.absent) 0 = none := rfl
  refine ⟨rfl, ?_⟩
  rw [h0]
  simp

/-- C8 amended: the timestamp normalizer is total and never throws;
unparseable strings, non-finite numbers, and unrecognized shapes (null,
undefined, plain objects) degrade to the current instant; a malformed
seconds-object may instead yield an invalid instant, which never compares
into any window, so the per-record aggregation step leaves the state
unchanged; malformed numeric set fields parse to zero. -/
theorem C8_never_throws_amended :
    (∀ now : Int, convertToDate (TimestampLike.str none) now = some now) ∧
    (∀ now : Int, convertToDate TimestampLike.other now = some now) ∧
    (∀ now : Int, convertToDate (TimestampLike.numLit JsNumber.nan) now = some now) ∧
    (∀ now : Int, convertToDate (TimestampLike.numLit JsNumber.posInf) now = some now) ∧
    (∀ now : Int, convertToDate (TimestampLike.numLit JsNumber.negInf) now = some now) ∧
    (∀ (s e : Int), dateInWindow none s e = false) ∧
    (∀ (now s e : Int) (st : AggState) (w : WorkoutDoc),
        convertToDate w.date now = none → processDoc now s e st w = st) ∧
    parseNumber JsNum.junk = 0 ∧ parseNumber JsNum.absent = 0 :=
  ⟨fun _ => rfl, fun _ => rfl, fun _ => rfl, fun _ => rfl, fun _ => rfl, fun _ _ => rfl,
    processDoc_invalidDate, rfl, rfl⟩

/-- C8 witness: the skip clause applied to a workout whose date is a
malformed seconds object. -/
theorem C8_never_throws_witness :
    processDoc 0 0 604800000 initState
        { date := TimestampLike.secondsObj JsNum.junk JsNum.absent } = initState :=
  C8_never_throws_amended.2.2.2.2.2.2.1 0 0 604800000 initState
    { date := TimestampLike.secondsObj JsNum.junk JsNum.absent } rfl

/-- The C10 workout: one time-type exercise whose name contains both the
warmup and the cooldown keyword, with one 60-second set. -/
def c10Workout : WorkoutDoc :=
  { date := TimestampLike.tsObject 0,
    exercises := some
      [{ name := some "ウォームアップとクールダウン", sets := some [some { duration := JsNum.num 60 }] }] }

/-- C10 (implicit): the warmup and cooldown keyword tests are independent
checks, not mutually exclusive branches: an in-window time-type exercise whose
name contains both keywords contributes its positive seconds sum to the
warmup total and to the cooldown total simultaneously. -/
theorem C10_both_keywords_both_totals :
    (∀ ex : ExerciseRec, resolveMenuType ex = MenuType.time →
        jsIncludes (menuNameOf ex) warmupKeyword = true →
        jsIncludes (menuNameOf ex) cooldownKeyword = true →
          exWarmupMenuSeconds ex = posDurationSecondsSum ex.sets ∧
          exCooldownMenuSeconds ex = posDurationSecondsSum ex.sets) ∧
    (aggregate 0 0 1 [c10Workout]).warmupTotalSeconds = 60 ∧
    (aggregate 0 0 1 [c10Workout]).cooldownTotalSeconds = 60 := by
  refine ⟨?_, ?_, ?_⟩
  · intro ex hres hw hc
    constructor
    · unfold exWarmupMenuSeconds
      rw [if_pos ⟨hres, hw⟩]
    · unfold exCooldownMenuSeconds
      rw [if_pos ⟨hres, hc⟩]
  all_goals
    rw [aggregate_one 0 0 1 c10Workout 0 rfl (le_refl 0) (by norm_num)]
  · show workoutWarmupSeconds c10Workout = 60
    have hres : resolveMenuType
        { name := some "ウォームアップとクールダウン", sets := some [some { duration := JsNum.num 60 }] } =
        MenuType.time := by decide
    have hw : jsIncludes
        (menuNameOf { name := some "ウォームアップとクールダウン", sets := some [some { duration := JsNum.num 60 }] })
        warmupKeyword = true := by decide
    norm_num [workoutWarmupSeconds, workoutExplicitWarmup, workoutMenuWarmupSeconds, c10Workout,
      fieldSeconds, exWarmupMenuSeconds, hres, hw, posDurationSecondsSum, parseNumber,
      jsOrElse, setField]
  · show workoutCooldownSeconds c10Workout = 60
    have hres : resolveMenuType
        { name := some "ウォームアップとクールダウン", sets := some [some { duration := JsNum.num 60 }] } =
        MenuType.time := by decide
    have hc : jsIncludes
        (menuNameOf { name := some "ウォームアップとクールダウン", sets := some [some { duration := JsNum.num 60 }] })
        cooldownKeyword = true := by decide
    norm_num [workoutCooldownSeconds, workoutExplicitCooldown, workoutMenuCooldownSeconds,
      c10Workout, fieldSeconds, exCooldownMenuSeconds, hres, hc, posDurationSecondsSum,
      parseNumber, jsOrElse, setField]

/-- C10 witness: the independence clause applied to the concrete
both-keyword exercise. -/
theorem C10_both_keywords_witness :
    exWarmupMenuSeconds
        { name := some "ウォームアップとクールダウン", sets := some [some { duration := JsNum.num 60 }] } =
      posDurationSecondsSum
        (some [some { duration := JsNum.num 60 }] : Option (List (Option ExerciseSet))) ∧
    exCooldownMenuSeconds
        { name := some "ウォームアップとクールダウン", sets := some [some { duration := JsNum.num 60 }] } =
      posDurationSecondsSum
        (some [some { duration := JsNum.num 60 }] : Option (List (Option ExerciseSet))) :=
  C10_both_keywords_both_totals.1
    { name := some "ウォームアップとクールダウン", sets := some [some { duration := JsNum.num 60 }] }
    (by decide) (by decide) (by decide)
